import Mathlib

/-!
Shallow embedding of the locale resolution and switching subsystem of a Next.js
boilerplate.  The repository contributes two source files: the routing
configuration (src/i18n/routing.ts) and the language switcher widget
(src/features/language-switcher/language-switcher.tsx).  The locale resolver
and the cookie reader are framework code (next-intl) that is not part of the
repository; those two operations are modelled from the specification, over the
routing configuration taken from the source.
-/

/-- Routing configuration record: the shape of the object passed to
defineRouting in src/i18n/routing.ts. -/
structure Routing where
  locales : List String
  defaultLocale : String
  localePrefix : String
deriving DecidableEq

/-- The routing constant of src/i18n/routing.ts lines 3 to 7. -/
def routing : Routing :=
  { locales := ["en", "zh", "es", "id"],
    defaultLocale := "en",
    localePrefix := "never" }

/-- A client-side cookie as configured by the template string on line 15 of
src/features/language-switcher/language-switcher.tsx: a key name, a value, a
path scope, a max-age in seconds and a SameSite policy. -/
structure Cookie where
  name : String
  value : String
  path : String
  maxAge : Nat
  sameSite : String
deriving DecidableEq

/-- The cookie written by handleLanguageChange, read off the template string on
line 15 of the switcher: key NEXT_LOCALE, the chosen language interpolated
verbatim as the value, path scope the whole site, max-age one year, SameSite
policy Lax. -/
def localeCookie (language : String) : Cookie :=
  { name := "NEXT_LOCALE",
    value := language,
    path := "/",
    maxAge := 31536000,
    sameSite := "Lax" }

/-- The raw document.cookie assignment string of line 15 of the switcher, with
the language argument interpolated verbatim and no validation or encoding. -/
def cookieString (language : String) : String :=
  "NEXT_LOCALE=" ++ language ++ "; path=/; max-age=31536000; SameSite=Lax"

/-- The observable browser effects performed by the switcher handler. -/
inductive BrowserEvent where
  | setCookie (c : Cookie)
  | reload
deriving DecidableEq

/-- handleLanguageChange of src/features/language-switcher/language-switcher.tsx
lines 13 to 17: assign document.cookie, then reload the page, in that order. -/
def handleLanguageChange (language : String) : List BrowserEvent :=
  [BrowserEvent.setCookie (localeCookie language), BrowserEvent.reload]

/-- A cookie as held by the client store: key name, value and absolute expiry
time in seconds (the time it was set plus its max-age). -/
structure StoredCookie where
  name : String
  value : String
  expires : Nat
deriving DecidableEq

/-- Browser semantics of a document.cookie assignment at time now: the new
cookie replaces any stored cookie of the same name and expires maxAge seconds
after now. -/
def setCookie (store : List StoredCookie) (now : Nat) (c : Cookie) :
    List StoredCookie :=
  store.filter (fun sc => sc.name != c.name) ++
    [{ name := c.name, value := c.value, expires := now + c.maxAge }]

/-- Modelled from the spec: the syntactic shape of a Locale code, the short
two-letter lowercase codes used by the Registry.  The reader validates the
stored value against this shape; a well-shaped but unsupported code (such as
fr) still reaches the resolver, which then falls back to the default. -/
def isLocaleCode (s : String) : Bool :=
  s.length == 2 && s.data.all Char.isLower

/-- Modelled from the spec: read() of the Locale Persistence Adapter at time
now.  The reader of the NEXT_LOCALE key is framework code absent from src; per
the spec it returns the stored value when it is present, unexpired and
syntactically valid as a Locale code, and returns absent otherwise.  It is a
total function into Option, so malformed data is mapped to none rather than
raising. -/
def readPref (store : List StoredCookie) (now : Nat) : Option String :=
  match store.find? (fun sc => sc.name == "NEXT_LOCALE" && decide (now < sc.expires)) with
  | some sc => if isLocaleCode sc.value then some sc.value else none
  | none => none

/-- Modelled from the spec: write(locale, ttlSeconds) of the Locale Persistence
Adapter.  It stores the Locale code under the single NEXT_LOCALE key with the
given expiry horizon; the only call site in the source, line 15 of the
switcher, fixes ttlSeconds to one year (31536000 seconds). -/
def write (store : List StoredCookie) (now : Nat) (locale : String)
    (ttlSeconds : Nat) : List StoredCookie :=
  setCookie store now { localeCookie locale with maxAge := ttlSeconds }

/-- Modelled from the spec: resolve of the Locale Resolver.  The resolver is
framework code absent from src; per the spec it returns a present stored
preference when that preference is a member of the Registry supported set
(routing.locales of src/i18n/routing.ts) and the Registry default Locale
otherwise. -/
def resolve (storedPreference : Option String) : String :=
  match storedPreference with
  | some l => if routing.locales.contains l then l else routing.defaultLocale
  | none => routing.defaultLocale

/-- The client state touched by the switcher: the cookie store and the number
of full page reloads that have been forced. -/
structure ClientState where
  cookies : List StoredCookie
  reloadCount : Nat
deriving DecidableEq

/-- Effect of one browser event on the client state at time now. -/
def applyEvent (now : Nat) (s : ClientState) (e : BrowserEvent) : ClientState :=
  match e with
  | BrowserEvent.setCookie c => { s with cookies := setCookie s.cookies now c }
  | BrowserEvent.reload => { s with reloadCount := s.reloadCount + 1 }

/-- switchTo: running the events of handleLanguageChange, in order, on the
client state. -/
def switchTo (now : Nat) (language : String) (s : ClientState) : ClientState :=
  (handleLanguageChange language).foldl (applyEvent now) s

/-- Helper: find? skips a prefix on which the predicate is everywhere false. -/
lemma find?_append_of_forall_false {α : Type} (p : α → Bool) (l₁ l₂ : List α)
    (h : ∀ x ∈ l₁, p x = false) : (l₁ ++ l₂).find? p = l₂.find? p := by
  induction l₁ with
  | nil => rfl
  | cons a t ih =>
      have ha : p a = false := h a (List.mem_cons_self a t)
      have ht : ∀ x ∈ t, p x = false := fun x hx => h x (List.mem_cons_of_mem a hx)
      simp [List.find?_cons, ha, ih ht]

/-- Helper: reading right after a set of the NEXT_LOCALE cookie sees exactly
that cookie, filtered through expiry and shape validation. -/
lemma read_setCookie (store : List StoredCookie) (now t : Nat) (c : Cookie)
    (hname : c.name = "NEXT_LOCALE") :
    readPref (setCookie store now c) t =
      if t < now + c.maxAge then
        (if isLocaleCode c.value then some c.value else none)
      else none := by
  unfold readPref setCookie
  rw [find?_append_of_forall_false]
  · by_cases hlt : t < now + c.maxAge
    · simp [List.find?_cons, hname, hlt]
    · simp [List.find?_cons, hname, hlt]
  · intro x hx
    rw [List.mem_filter] at hx
    have hne : x.name ≠ c.name := by simpa using hx.2
    have hb : (x.name == "NEXT_LOCALE") = false := by
      rw [← hname]
      exact beq_eq_false_iff_ne.mpr hne
    simp [hb]

/-- Helper: every member of the supported set has the Locale-code shape. -/
lemma isLocaleCode_of_supported (L : String) (h : L ∈ routing.locales) :
    isLocaleCode L = true := by
  have h4 : L ∈ ["en", "zh", "es", "id"] := h
  simp only [List.mem_cons, List.mem_singleton, List.not_mem_nil, or_false] at h4
  rcases h4 with rfl | rfl | rfl | rfl <;> decide

/-- C1: a stored preference that is absent, or names a locale outside the
supported set of the Registry, resolves to the default locale, so an
unsupported value never propagates into rendering. -/
theorem resolve_unsupported (v : Option String)
    (h : ∀ l, v = some l → l ∉ routing.locales) :
    resolve v = routing.defaultLocale := by
  cases v with
  | none => rfl
  | some l => simp [resolve, h l rfl]

/-- Witness for C1 at the concrete unsupported value fr and at the absent
value. -/
theorem resolve_unsupported_witness :
    resolve (some "fr") = routing.defaultLocale ∧
    resolve none = routing.defaultLocale := by
  constructor
  · exact resolve_unsupported (some "fr")
      (fun l hl => by cases hl; decide)
  · exact resolve_unsupported none (fun l hl => by cases hl)

/-- C2: every locale in the supported set resolves to itself, the default
locale included, with no special-casing. -/
theorem resolve_supported (L : String) (h : L ∈ routing.locales) :
    resolve (some L) = L := by
  have h4 : L ∈ ["en", "zh", "es", "id"] := h
  simp only [List.mem_cons, List.mem_singleton, List.not_mem_nil, or_false] at h4
  rcases h4 with rfl | rfl | rfl | rfl <;> decide

/-- Witness for C2 at the default locale itself. -/
theorem resolve_supported_witness : resolve (some "en") = "en" :=
  resolve_supported "en" (by decide)

/-- C3: switchTo performs exactly two steps in order: first the cookie write
carrying the chosen locale with the one-year max-age, then the full reload; the
reload never precedes the write because the event trace is exactly this
two-element list. -/
theorem switchTo_write_then_reload (L : String) :
    handleLanguageChange L =
      [BrowserEvent.setCookie (localeCookie L), BrowserEvent.reload] ∧
    (localeCookie L).value = L ∧ (localeCookie L).maxAge = 31536000 :=
  ⟨rfl, rfl, rfl⟩

/-- C4: every cookie write issued by the switcher stores the preference under
the single NEXT_LOCALE key with path scope the entire site, max-age 31536000
seconds and SameSite policy Lax. -/
theorem write_cookie_attributes (language : String) (c : Cookie)
    (h : BrowserEvent.setCookie c ∈ handleLanguageChange language) :
    c.name = "NEXT_LOCALE" ∧ c.path = "/" ∧ c.maxAge = 31536000 ∧
      c.sameSite = "Lax" := by
  have hc : c = localeCookie language := by
    simp [handleLanguageChange] at h
    exact h
  subst hc
  exact ⟨rfl, rfl, rfl, rfl⟩

/-- Witness for C4 at the concrete locale es. -/
theorem write_cookie_attributes_witness :
    (localeCookie "es").name = "NEXT_LOCALE" ∧ (localeCookie "es").path = "/" ∧
      (localeCookie "es").maxAge = 31536000 ∧
      (localeCookie "es").sameSite = "Lax" :=
  write_cookie_attributes "es" (localeCookie "es") (by simp [handleLanguageChange])

/-- C5: round-trip: for every supported locale and every positive ttl, a write
followed by an immediate read returns that locale. -/
theorem write_read_roundtrip (store : List StoredCookie) (now ttl : Nat)
    (L : String) (hL : L ∈ routing.locales) (httl : 0 < ttl) :
    readPref (write store now L ttl) now = some L := by
  unfold write
  rw [read_setCookie _ _ _ _ rfl]
  have hlt : now < now + ttl := Nat.lt_add_of_pos_right httl
  simp [localeCookie, hlt, isLocaleCode_of_supported L hL]

/-- Witness for C5 at the concrete locale zh with the default one-year ttl. -/
theorem write_read_roundtrip_witness :
    readPref (write [] 5 "zh" 31536000) 5 = some "zh" :=
  write_read_roundtrip [] 5 31536000 "zh" (by decide) (by decide)

/-- C6: consecutive switches are last-write-wins: after switching to L1 and
then to L2, the persisted preference reads back as L2; taking L1 = L2 gives the
idempotence of a double switch. -/
theorem switchTo_last_write_wins (s : ClientState) (now : Nat) (L1 L2 : String)
    (h1 : L1 ∈ routing.locales) (h2 : L2 ∈ routing.locales) :
    readPref (switchTo now L2 (switchTo now L1 s)).cookies now = some L2 := by
  have hc : (switchTo now L2 (switchTo now L1 s)).cookies =
      setCookie (setCookie s.cookies now (localeCookie L1)) now
        (localeCookie L2) := rfl
  rw [hc, read_setCookie _ _ _ _ rfl]
  have hlt : now < now + 31536000 :=
    Nat.lt_add_of_pos_right (by decide)
  simp [localeCookie, hlt, isLocaleCode_of_supported L2 h2]

/-- Witness for C6: switching to en and then twice to id leaves id persisted. -/
theorem switchTo_last_write_wins_witness :
    readPref (switchTo 0 "id" (switchTo 0 "en" { cookies := [], reloadCount := 0 })).cookies 0 =
      some "id" :=
  switchTo_last_write_wins { cookies := [], reloadCount := 0 } 0 "en" "id"
    (by decide) (by decide)

/-- C7: read is total on malformed persisted data: whenever every stored value
under the NEXT_LOCALE key fails to parse as a Locale code, read returns absent;
being a total function into Option, it never raises. -/
theorem read_malformed (store : List StoredCookie) (now : Nat)
    (h : ∀ sc ∈ store, sc.name = "NEXT_LOCALE" → isLocaleCode sc.value = false) :
    readPref store now = none := by
  unfold readPref
  cases hf : store.find?
      (fun sc => sc.name == "NEXT_LOCALE" && decide (now < sc.expires)) with
  | none => rfl
  | some sc =>
      have hmem : sc ∈ store := List.mem_of_find?_eq_some hf
      have hp := List.find?_some hf
      have hname : sc.name = "NEXT_LOCALE" := by
        have hb : (sc.name == "NEXT_LOCALE") = true := by
          rcases Bool.and_eq_true_iff.mp hp with ⟨hb, _⟩
          exact hb
        exact beq_iff_eq.mp hb
      simp [h sc hmem hname]

/-- Witness for C7 at a concrete malformed stored value. -/
theorem read_malformed_witness :
    readPref [{ name := "NEXT_LOCALE", value := "garbage!", expires := 999 }] 0 = none :=
  read_malformed [{ name := "NEXT_LOCALE", value := "garbage!", expires := 999 }] 0
    (by decide)

/-- C8: expiry boundary: a preference written with ttl zero, or whose ttl has
elapsed by the time of the read, is treated by read as absent. -/
theorem read_expired (store : List StoredCookie) (now ttl t : Nat) (L : String)
    (h : now + ttl ≤ t) : readPref (write store now L ttl) t = none := by
  unfold write
  rw [read_setCookie _ _ _ _ rfl]
  simp [Nat.not_lt.mpr h]

/-- Witness for C8: a write with ttl zero reads back absent at the same
instant. -/
theorem read_expired_witness : readPref (write [] 0 "en" 0) 0 = none :=
  read_expired [] 0 0 0 "en" (by decide)

/-- C9: registry invariant: the supported locales are always the ordered
sequence en, zh, es, id, the default locale is always en, and the default is a
member of the supported set.  The Registry is a constant definition, so no
operation of the subsystem can mutate it. -/
theorem registry_invariant :
    routing.locales = ["en", "zh", "es", "id"] ∧
    routing.defaultLocale = "en" ∧
    routing.defaultLocale ∈ routing.locales :=
  ⟨rfl, rfl, by decide⟩

/-- C10: the switch operation validates and encodes nothing: for every input
string, supported or not, the handler emits a write of the cookie named exactly
NEXT_LOCALE whose value is the input verbatim, followed by the reload, and the
raw assignment string interpolates the input verbatim. -/
theorem handleLanguageChange_no_validation (s : String) :
    handleLanguageChange s =
      [BrowserEvent.setCookie (localeCookie s), BrowserEvent.reload] ∧
    (localeCookie s).name = "NEXT_LOCALE" ∧
    (localeCookie s).value = s ∧
    cookieString s = "NEXT_LOCALE=" ++ s ++ "; path=/; max-age=31536000; SameSite=Lax" :=
  ⟨rfl, rfl, rfl, rfl⟩
